import Mathlib

/-!
Verification development for the differentiable 2D rigid-body simulation core
(tensor/autograd engine, rigid body, motors, engine loop, contact manager).

Every definition below is a shallow embedding translated from the C++ sources:
machine `float` is modelled by `ℚ` (the claims under study are about structure,
ordering, shapes and exact arithmetic identities, not about rounding), C++
pointers into a node heap are modelled by a finite index type, `std::function`
backward closures are defunctionalised into an inductive `BackOp` whose
interpretation mirrors each closure body, and code paths that abort (a thrown
`std::runtime_error`, or an Eigen size assertion in a release of the library
compiled with assertions on) are modelled by `Except TError`.
-/

/-- Failure modes of the tensor layer.
`eigenAssert` models an Eigen size assertion firing inside an unchecked
operation (no shapes are part of the message); `dimMismatch` models the
`std::runtime_error` thrown by `operator*` / `operator/` which reports the two
operand shapes; `motorOverlap` models the `std::runtime_error` thrown by
`Body::AddMotor`. -/
inductive TError where
  | eigenAssert : TError
  | dimMismatch (r1 c1 r2 c2 : Nat) : TError
  | motorOverlap : TError
deriving DecidableEq

/-- Does this error value carry the two operand shapes (as the spec's
"hard failure with shapes printed" requires)? -/
def TError.reportsShapes : TError → Bool
  | .dimMismatch _ _ _ _ => true
  | _ => false

/-- Dense matrix tensor, from `tensor.h` / the tensor implementation file:
an Eigen `MatrixXf` (modelled as a total function on indices together with the
shape), plus the `m_bRequiresGrad` flag.  The gradient matrix, child list and
backward closure live in the heap model further below; they are irrelevant to
the forward-value claims settled against this structure. -/
structure Tensor where
  rows : Nat
  cols : Nat
  data : Nat → Nat → ℚ
  requiresGrad : Bool

/-- `Tensor::Tensor(int rows, int cols, bool)`: zero-filled matrix. -/
def Tensor.zeros (r c : Nat) (rg : Bool) : Tensor :=
  { rows := r, cols := c, data := fun _ _ => 0, requiresGrad := rg }

/-- `Tensor::Tensor(std::vector<float>, bool)`: column vector from a list. -/
def Tensor.ofList (l : List ℚ) (rg : Bool) : Tensor :=
  { rows := l.length, cols := 1
    data := fun r c => if c = 0 then l.getD r 0 else 0
    requiresGrad := rg }

/-- `Tensor::Get(int r, int c)`: bounds-checked read, `0.0f` out of range. -/
def Tensor.Get (t : Tensor) (r c : Int) : ℚ :=
  if 0 ≤ r ∧ r < (t.rows : Int) ∧ 0 ≤ c ∧ c < (t.cols : Int) then
    t.data r.toNat c.toNat
  else 0

/-- `Tensor::Set(int r, int c, float)`: bounds-checked write, silent no-op out
of range. -/
def Tensor.Set (t : Tensor) (r c : Int) (v : ℚ) : Tensor :=
  if 0 ≤ r ∧ r < (t.rows : Int) ∧ 0 ≤ c ∧ c < (t.cols : Int) then
    { t with data := fun r0 c0 => if r0 = r.toNat ∧ c0 = c.toNat then v else t.data r0 c0 }
  else t

/-- `Tensor::operator+`.  The C++ body performs `this->m_Data + other.m_Data`
with no shape check of its own; on mismatched shapes Eigen's size assertion
aborts (no shapes reported), modelled as `.error .eigenAssert`. -/
def Tensor.add (a b : Tensor) : Except TError Tensor :=
  if a.rows = b.rows ∧ a.cols = b.cols then
    .ok { rows := a.rows, cols := a.cols
          data := fun r c => a.data r c + b.data r c
          requiresGrad := a.requiresGrad || b.requiresGrad }
  else .error .eigenAssert

/-- `Tensor::operator-`: as `operator+`, unchecked subtraction. -/
def Tensor.sub (a b : Tensor) : Except TError Tensor :=
  if a.rows = b.rows ∧ a.cols = b.cols then
    .ok { rows := a.rows, cols := a.cols
          data := fun r c => a.data r c - b.data r c
          requiresGrad := a.requiresGrad || b.requiresGrad }
  else .error .eigenAssert

/-- `Tensor::operator*` (Hadamard): a `(1,1)` right operand broadcasts,
otherwise a shape mismatch throws `std::runtime_error` with both shapes in the
message (`.dimMismatch`). -/
def Tensor.mul (a b : Tensor) : Except TError Tensor :=
  if b.rows = 1 ∧ b.cols = 1 then
    .ok { rows := a.rows, cols := a.cols
          data := fun r c => a.data r c * b.data 0 0
          requiresGrad := a.requiresGrad || b.requiresGrad }
  else if a.rows = b.rows ∧ a.cols = b.cols then
    .ok { rows := a.rows, cols := a.cols
          data := fun r c => a.data r c * b.data r c
          requiresGrad := a.requiresGrad || b.requiresGrad }
  else .error (.dimMismatch a.rows a.cols b.rows b.cols)

/-- `Tensor::operator/`: same structure as `operator*`.  (Division by zero in
the C++ produces `±inf` on floats; over `ℚ` it yields `0`.  No claim under
study exercises that path.) -/
def Tensor.div (a b : Tensor) : Except TError Tensor :=
  if b.rows = 1 ∧ b.cols = 1 then
    .ok { rows := a.rows, cols := a.cols
          data := fun r c => a.data r c / b.data 0 0
          requiresGrad := a.requiresGrad || b.requiresGrad }
  else if a.rows = b.rows ∧ a.cols = b.cols then
    .ok { rows := a.rows, cols := a.cols
          data := fun r c => a.data r c / b.data r c
          requiresGrad := a.requiresGrad || b.requiresGrad }
  else .error (.dimMismatch a.rows a.cols b.rows b.cols)

/-- `Tensor::operator*(float)`: scaling, never fails. -/
def Tensor.mulScalar (a : Tensor) (s : ℚ) : Tensor :=
  { a with data := fun r c => a.data r c * s }

/-- `Tensor::Select(int idx)`: flat (column-major) indexing producing a `(1,1)`
scalar.  An out-of-range index prints to `std::cerr` and returns the
default-constructed `(1,1)` zero result — it does NOT throw; the `Except`
return type records that this member, like the throwing operators, could
surface a failure, and that here it never does. -/
def Tensor.Select (t : Tensor) (idx : Int) : Except TError Tensor :=
  if idx < 0 ∨ (t.rows * t.cols : Int) ≤ idx then
    .ok (Tensor.zeros 1 1 false)
  else
    .ok { rows := 1, cols := 1
          data := fun _ _ => t.data (idx.toNat % t.rows) (idx.toNat / t.rows)
          requiresGrad := t.requiresGrad }

/-- `Tensor::Reshape(int r, int c)`: column-major reinterpretation.  A total
count mismatch prints to `std::cerr` and returns `Tensor(1,1)` (zero scalar,
requires-grad false) — it does NOT throw. -/
def Tensor.Reshape (t : Tensor) (r c : Nat) : Except TError Tensor :=
  if r * c ≠ t.rows * t.cols then
    .ok (Tensor.zeros 1 1 false)
  else
    .ok { rows := r, cols := c
          data := fun i j => t.data ((i + j * r) % t.rows) ((i + j * r) / t.rows)
          requiresGrad := t.requiresGrad }

/-- A small concrete tensor used by witnesses: the `(2,1)` column `[3, 5]`. -/
def t21 : Tensor := Tensor.ofList [3, 5] false

/-- A concrete `(1,1)` tensor. -/
def t11 : Tensor := Tensor.ofList [7] false

/-- A concrete `(1,3)` row tensor. -/
def t13 : Tensor := { rows := 1, cols := 3, data := fun _ c => (c : ℚ), requiresGrad := false }

/-- C10: element access at the public interface is total: `Get` returns the
stored element in range and `0` out of range; `Set` writes in range and is a
silent no-op (tensor unchanged) out of range. -/
theorem c10_get_set_total (t : Tensor) (r c : Int) (v : ℚ) :
    ((0 ≤ r ∧ r < (t.rows : Int) ∧ 0 ≤ c ∧ c < (t.cols : Int)) →
        Tensor.Get t r c = t.data r.toNat c.toNat ∧
        Tensor.Get (Tensor.Set t r c v) r c = v) ∧
    (¬(0 ≤ r ∧ r < (t.rows : Int) ∧ 0 ≤ c ∧ c < (t.cols : Int)) →
        Tensor.Get t r c = 0 ∧ Tensor.Set t r c v = t) := by
  constructor
  · intro h
    refine ⟨by simp [Tensor.Get, h], ?_⟩
    simp [Tensor.Set, Tensor.Get, h]
  · intro h
    exact ⟨by simp [Tensor.Get, h], by simp [Tensor.Set, h]⟩

/-- Witness for C10 at a concrete in-range and out-of-range index. -/
theorem c10_get_set_total_witness :
    ((0 ≤ (1 : Int) ∧ (1 : Int) < ((t21.rows : Nat) : Int) ∧ 0 ≤ (0 : Int) ∧
        (0 : Int) < ((t21.cols : Nat) : Int)) ∧
      Tensor.Get t21 1 0 = t21.data 1 0 ∧
      Tensor.Get (Tensor.Set t21 1 0 9) 1 0 = 9) ∧
    (Tensor.Get t21 5 0 = 0 ∧ Tensor.Set t21 5 0 9 = t21) := by
  have h1 : 0 ≤ (1 : Int) ∧ (1 : Int) < ((t21.rows : Nat) : Int) ∧ 0 ≤ (0 : Int) ∧
      (0 : Int) < ((t21.cols : Nat) : Int) := by decide
  have h2 : ¬(0 ≤ (5 : Int) ∧ (5 : Int) < ((t21.rows : Nat) : Int) ∧ 0 ≤ (0 : Int) ∧
      (0 : Int) < ((t21.cols : Nat) : Int)) := by decide
  exact ⟨⟨h1, (c10_get_set_total t21 1 0 9).1 h1⟩, (c10_get_set_total t21 5 0 9).2 h2⟩

/-- Counterexample to C5: `Select` with the out-of-range flat index 5 on a
2-element tensor, and `Reshape 3 2` on the same 2-element tensor, both return
an ordinary `(1,1)` zero result tensor to the caller — neither is a raised
failure, contradicting the claim that both are hard failures. -/
theorem c5_select_reshape_counterexample :
    Tensor.Select t21 5 = Except.ok (Tensor.zeros 1 1 false) ∧
    Tensor.Reshape t21 3 2 = Except.ok (Tensor.zeros 1 1 false) ∧
    (Except.ok (Tensor.zeros 1 1 false) : Except TError Tensor).isOk = true := by
  refine ⟨?_, ?_, rfl⟩
  · simp [Tensor.Select, t21, Tensor.ofList]
  · simp [Tensor.Reshape, t21, Tensor.ofList]

/-- C5 amended: `Select` with an out-of-range flat index prints an error and
returns the default `(1,1)` zero tensor (no failure is raised to the caller),
and `Reshape(r, c)` with `r·c` different from the element count prints an
error and returns the default `(1,1)` zero tensor (no failure raised). -/
theorem c5_select_reshape_soft (t : Tensor) (idx : Int) (r c : Nat)
    (hidx : idx < 0 ∨ (t.rows * t.cols : Int) ≤ idx)
    (hrc : r * c ≠ t.rows * t.cols) :
    Tensor.Select t idx = Except.ok (Tensor.zeros 1 1 false) ∧
    Tensor.Reshape t r c = Except.ok (Tensor.zeros 1 1 false) := by
  exact ⟨by simp [Tensor.Select, hidx], by simp [Tensor.Reshape, hrc]⟩

/-- Witness for the amended C5 at concrete out-of-range inputs. -/
theorem c5_select_reshape_soft_witness :
    ((5 : Int) < 0 ∨ (t21.rows * t21.cols : Int) ≤ 5) ∧
    (3 * 2 ≠ t21.rows * t21.cols) ∧
    (Tensor.Select t21 5 = Except.ok (Tensor.zeros 1 1 false) ∧
      Tensor.Reshape t21 3 2 = Except.ok (Tensor.zeros 1 1 false)) := by
  have h1 : (5 : Int) < 0 ∨ (t21.rows * t21.cols : Int) ≤ 5 := by decide
  have h2 : 3 * 2 ≠ t21.rows * t21.cols := by decide
  exact ⟨h1, h2, c5_select_reshape_soft t21 5 3 2 h1 h2⟩

/-- Counterexample to C6: `operator+` on mismatched shapes `(2,1)` vs `(1,1)`
fails through an unchecked Eigen assertion that carries no shape information,
not through the claimed hard failure reporting the two shapes. -/
theorem c6_add_no_shape_report_counterexample :
    Tensor.add t21 t11 = Except.error TError.eigenAssert ∧
    TError.eigenAssert.reportsShapes = false := by
  refine ⟨?_, rfl⟩
  simp [Tensor.add, t21, t11, Tensor.ofList]

/-- C6 amended: `·` and `/` fail hard with the two operand shapes reported
whenever the shapes differ and the right operand is not `(1,1)`; a `(1,1)`
right operand of `·` and `/` broadcasts instead of failing; but `+` and `−`
perform no shape check of their own — a mismatch dies on an unchecked library
assertion that reports no shapes. -/
theorem c6_elementwise_shape_errors (a b : Tensor) :
    ((a.rows ≠ b.rows ∨ a.cols ≠ b.cols) →
        Tensor.add a b = Except.error TError.eigenAssert ∧
        Tensor.sub a b = Except.error TError.eigenAssert) ∧
    ((b.rows = 1 ∧ b.cols = 1) →
        (Tensor.mul a b).isOk = true ∧ (Tensor.div a b).isOk = true) ∧
    (¬(b.rows = 1 ∧ b.cols = 1) → (a.rows ≠ b.rows ∨ a.cols ≠ b.cols) →
        Tensor.mul a b = Except.error (TError.dimMismatch a.rows a.cols b.rows b.cols) ∧
        Tensor.div a b = Except.error (TError.dimMismatch a.rows a.cols b.rows b.cols)) := by
  refine ⟨?_, ?_, ?_⟩
  · intro h
    have h' : ¬(a.rows = b.rows ∧ a.cols = b.cols) := by tauto
    exact ⟨by simp [Tensor.add, h'], by simp [Tensor.sub, h']⟩
  · intro h
    exact ⟨by simp [Tensor.mul, h, Except.isOk, Except.toBool],
      by simp [Tensor.div, h, Except.isOk, Except.toBool]⟩
  · intro h1 h2
    have h' : ¬(a.rows = b.rows ∧ a.cols = b.cols) := by tauto
    exact ⟨by simp [Tensor.mul, h1, h'], by simp [Tensor.div, h1, h']⟩

/-- Witness for the amended C6: all three branches exercised at concrete
shapes — `(2,1) + (1,1)` dies on the assertion, `(2,1) · (1,1)` broadcasts,
`(2,1) · (1,3)` throws with both shapes reported. -/
theorem c6_elementwise_shape_errors_witness :
    (Tensor.add t21 t11 = Except.error TError.eigenAssert ∧
      Tensor.sub t21 t11 = Except.error TError.eigenAssert) ∧
    ((Tensor.mul t21 t11).isOk = true ∧ (Tensor.div t21 t11).isOk = true) ∧
    (Tensor.mul t21 t13 = Except.error (TError.dimMismatch 2 1 1 3) ∧
      Tensor.div t21 t13 = Except.error (TError.dimMismatch 2 1 1 3)) := by
  refine ⟨(c6_elementwise_shape_errors t21 t11).1 (by decide),
    (c6_elementwise_shape_errors t21 t11).2.1 (by decide), ?_⟩
  have h := (c6_elementwise_shape_errors t21 t13).2.2 (by decide) (by decide)
  simpa [t21, t13, Tensor.ofList] using h

/-- `Motor` (motor.h): local offset, rectangular footprint, thrust state.
The `parent` back-pointer is modelled by the flag `parentSet` (set when the
motor is attached to a body). -/
structure Motor where
  local_x : ℚ := 0
  local_y : ℚ := 0
  width : ℚ := 1/10
  height : ℚ := 1/10
  mass : ℚ := 1/10
  thrust : ℚ := 0
  max_thrust : ℚ := 10
  angle : ℚ
  parentSet : Bool := false
deriving DecidableEq

/-- `Motor::SetThrust`: clamp to `[0, max_thrust]`. -/
def Motor.SetThrust (m : Motor) (t : ℚ) : Motor :=
  { m with thrust := max 0 (min t m.max_thrust) }

/-- `Motor::Overlaps`: axis-aligned rectangle overlap test in the body's local
frame (touching rectangles count as overlapping). -/
def Motor.Overlaps (a b : Motor) : Bool :=
  let left1 := a.local_x - a.width / 2
  let right1 := a.local_x + a.width / 2
  let bottom1 := a.local_y - a.height / 2
  let top1 := a.local_y + a.height / 2
  let left2 := b.local_x - b.width / 2
  let right2 := b.local_x + b.width / 2
  let bottom2 := b.local_y - b.height / 2
  let top2 := b.local_y + b.height / 2
  decide (¬(right1 < left2 ∨ right2 < left1 ∨ top1 < bottom2 ∨ top2 < bottom1))

/-- `Shape` (body.h): box/circle with dimensions and local offset. -/
inductive ShapeType where
  | BOX : ShapeType
  | CIRCLE : ShapeType
deriving DecidableEq, Inhabited

/-- A single collision shape. -/
structure Shape where
  type : ShapeType := .BOX
  width : ℚ := 1
  height : ℚ := 1
  offsetX : ℚ := 0
  offsetY : ℚ := 0
deriving Inhabited

/-- `AABB` (body.h). -/
structure AABB where
  minX : ℚ
  minY : ℚ
  maxX : ℚ
  maxY : ℚ

/-- `Body` (body.h): state tensors, properties, accumulators, shapes, motors,
material parameters.  The graph arena (`garbage_collector`) only pins C++
object lifetimes and carries no numeric state, so it is not modelled. -/
structure Body where
  pos : Tensor
  vel : Tensor
  rotation : Tensor
  ang_vel : Tensor
  mass : Tensor
  inertia : Tensor
  m_ForceAccumulator : Tensor
  m_TorqueAccumulator : Tensor
  shapes : List Shape
  motors : List Motor
  is_static : Bool
  friction : ℚ
  restitution : ℚ

/-- `Body::ResetForces`: fresh zero accumulators (requires-grad false). -/
def Body.ResetForces (b : Body) : Body :=
  { b with m_ForceAccumulator := Tensor.ofList [0, 0] false
           m_TorqueAccumulator := Tensor.ofList [0] false }

/-- `Body::Body(x, y, massVal, width, height)`: dynamic body constructor. -/
def Body.init (x y massVal width height : ℚ) : Body :=
  Body.ResetForces
    { pos := Tensor.ofList [x, y] true
      vel := Tensor.ofList [0, 0] true
      rotation := Tensor.ofList [0] true
      ang_vel := Tensor.ofList [0] true
      mass := Tensor.ofList [massVal] false
      inertia := Tensor.ofList [massVal * (width * width + height * height) / 12] false
      m_ForceAccumulator := Tensor.ofList [0, 0] false
      m_TorqueAccumulator := Tensor.ofList [0] false
      shapes := [{ type := .BOX, width := width, height := height, offsetX := 0, offsetY := 0 }]
      motors := []
      is_static := false
      friction := 1/2
      restitution := 0 }

/-- `Body::CreateStatic(x, y, width, height, rotation)`: static factory; a
nonzero initial rotation replaces the rotation tensor by a fresh one with
requires-grad FALSE. -/
def Body.CreateStatic (x y width height rotationVal : ℚ) : Body :=
  let b := Body.init x y 1 width height
  { b with is_static := true
           friction := 4/5
           restitution := 0
           rotation := if rotationVal ≠ 0 then Tensor.ofList [rotationVal] false else b.rotation }

/-- `Body::Step(const Tensor&, const Tensor&, float)`: semi-implicit Euler as
a chain of tensor ops — velocity from acceleration first, position from the
updated velocity, angular velocity before rotation. -/
def Body.StepManual (b : Body) (forces torque : Tensor) (dt : ℚ) : Except TError Body := do
  let invMass ← Tensor.div (Tensor.ofList [1] false) b.mass
  let acc ← Tensor.mul forces invMass
  let invI ← Tensor.div (Tensor.ofList [1] false) b.inertia
  let alpha ← Tensor.mul torque invI
  let dtT := Tensor.ofList [dt] false
  let accdt ← Tensor.mul acc dtT
  let vel2 ← Tensor.add b.vel accdt
  let veldt ← Tensor.mul vel2 dtT
  let pos2 ← Tensor.add b.pos veldt
  let alphadt ← Tensor.mul alpha dtT
  let ang2 ← Tensor.add b.ang_vel alphadt
  let angdt ← Tensor.mul ang2 dtT
  let rot2 ← Tensor.add b.rotation angdt
  pure { b with vel := vel2, pos := pos2, ang_vel := ang2, rotation := rot2 }

/-- `Body::Step(float)`: integrate from the accumulators, then reset both
accumulators to fresh zero tensors. -/
def Body.Step (b : Body) (dt : ℚ) : Except TError Body := do
  let b2 ← Body.StepManual b b.m_ForceAccumulator b.m_TorqueAccumulator dt
  pure (Body.ResetForces b2)

/-- `Body::ApplyForce`: accumulator ← accumulator + f (a graph op). -/
def Body.ApplyForce (b : Body) (f : Tensor) : Except TError Body := do
  let fa ← Tensor.add b.m_ForceAccumulator f
  pure { b with m_ForceAccumulator := fa }

/-- `Body::ApplyTorque`. -/
def Body.ApplyTorque (b : Body) (t : Tensor) : Except TError Body := do
  let ta ← Tensor.add b.m_TorqueAccumulator t
  pure { b with m_TorqueAccumulator := ta }

/-- `Body::ApplyForceAtPoint`: linear force plus the 2-D cross-product torque
`(pₓ−posₓ)·f_y − (p_y−pos_y)·fₓ`, all as tensor ops. -/
def Body.ApplyForceAtPoint (b : Body) (force point : Tensor) : Except TError Body := do
  let b1 ← Body.ApplyForce b force
  let px ← b.pos.Select 0
  let py ← b.pos.Select 1
  let pointX ← point.Select 0
  let pointY ← point.Select 1
  let dx ← Tensor.sub pointX px
  let dy ← Tensor.sub pointY py
  let fx ← force.Select 0
  let fy ← force.Select 1
  let s1 ← Tensor.mul dx fy
  let s2 ← Tensor.mul dy fx
  let torque ← Tensor.sub s1 s2
  Body.ApplyTorque b1 torque

/-- `Body::AddMotor` (body.h): reject (throw) if the new motor's footprint
overlaps any attached motor; otherwise set the parent back-pointer, append,
and add the motor's mass and point-mass inertia contribution. -/
def Body.AddMotor (b : Body) (m : Motor) : Except TError Body :=
  if b.motors.any (fun ex => Motor.Overlaps ex m) then .error .motorOverlap
  else
    .ok { b with
      motors := b.motors ++ [{ m with parentSet := true }]
      mass := Tensor.ofList [b.mass.Get 0 0 + m.mass] true
      inertia := Tensor.ofList
        [b.inertia.Get 0 0 + m.mass * (m.local_x * m.local_x + m.local_y * m.local_y)] true }

/-- Shape well-formedness of a body's state tensors, as established by the
constructor and preserved by every operation. -/
def BodyShaped (b : Body) : Prop :=
  b.pos.rows = 2 ∧ b.pos.cols = 1 ∧ b.vel.rows = 2 ∧ b.vel.cols = 1 ∧
  b.rotation.rows = 1 ∧ b.rotation.cols = 1 ∧ b.ang_vel.rows = 1 ∧ b.ang_vel.cols = 1 ∧
  b.mass.rows = 1 ∧ b.mass.cols = 1 ∧ b.inertia.rows = 1 ∧ b.inertia.cols = 1 ∧
  b.m_ForceAccumulator.rows = 2 ∧ b.m_ForceAccumulator.cols = 1 ∧
  b.m_TorqueAccumulator.rows = 1 ∧ b.m_TorqueAccumulator.cols = 1

instance (b : Body) : Decidable (BodyShaped b) := by
  unfold BodyShaped
  infer_instance

/-- C2. -/
theorem c2_semi_implicit_euler (b : Body) (f τ : Tensor) (dt : ℚ)
    (hb : BodyShaped b) (hf : f.rows = 2 ∧ f.cols = 1) (ht : τ.rows = 1 ∧ τ.cols = 1) :
    (∃ b', Body.StepManual b f τ dt = Except.ok b' ∧
      ((∀ i : Fin 2, b'.vel.Get i.val 0 =
          b.vel.Get i.val 0 + f.Get i.val 0 * (1 / b.mass.Get 0 0) * dt) ∧
       (∀ i : Fin 2, b'.pos.Get i.val 0 = b.pos.Get i.val 0 + b'.vel.Get i.val 0 * dt) ∧
       b'.ang_vel.Get 0 0 = b.ang_vel.Get 0 0 + τ.Get 0 0 * (1 / b.inertia.Get 0 0) * dt ∧
       b'.rotation.Get 0 0 = b.rotation.Get 0 0 + b'.ang_vel.Get 0 0 * dt) ∧
      ((∀ i : Fin 2, b.vel.Get i.val 0 = 0 ∧ f.Get i.val 0 = 0) →
        b.ang_vel.Get 0 0 = 0 → τ.Get 0 0 = 0 →
        (∀ i : Fin 2, b'.pos.Get i.val 0 = b.pos.Get i.val 0) ∧
        b'.rotation.Get 0 0 = b.rotation.Get 0 0) ∧
      (b.mass.Get 0 0 = 1 → (∀ i : Fin 2, b.vel.Get i.val 0 = 0) →
        ∀ i : Fin 2, b'.vel.Get i.val 0 = f.Get i.val 0 * dt ∧
          b'.pos.Get i.val 0 = b.pos.Get i.val 0 + f.Get i.val 0 * dt * dt)) ∧
    (∃ b2, Body.Step b dt = Except.ok b2 ∧
      b2.m_ForceAccumulator = Tensor.ofList [0, 0] false ∧
      b2.m_TorqueAccumulator = Tensor.ofList [0] false) := by
  obtain ⟨hpr, hpc, hvr, hvc, hrr, hrc, har, hac, hmr, hmc, hir, hic, h1, h2, h3, h4⟩ := hb
  obtain ⟨hfr, hfc⟩ := hf
  obtain ⟨htr, htc⟩ := ht
  constructor
  · simp only [Body.StepManual, Tensor.div, Tensor.mul, Tensor.add, Tensor.ofList,
      hmr, hmc, hir, hic, hfr, hfc, hvr, hvc, hpr, hpc, htr, htc, har, hac, hrr, hrc,
      List.length_cons, List.length_nil, and_self, if_true, reduceIte, bind, Except.bind, pure]
    refine ⟨_, rfl, ⟨?_, ?_, ?_, ?_⟩, ?_, ?_⟩
    · intro i
      fin_cases i <;> simp [Tensor.Get, hvr, hvc, hfr, hfc, hmr, hmc]
    · intro i
      fin_cases i <;> simp [Tensor.Get, hvr, hvc, hpr, hpc, hfr, hfc, hmr, hmc]
    · simp [Tensor.Get, har, hac, htr, htc, hir, hic]
    · simp [Tensor.Get, har, hac, hrr, hrc, htr, htc, hir, hic]
    · intro hvf hw0 ht0
      have hv0 : b.vel.data 0 0 = 0 := by
        have := (hvf 0).1; simpa [Tensor.Get, hvr, hvc] using this
      have hv1 : b.vel.data 1 0 = 0 := by
        have := (hvf 1).1; simpa [Tensor.Get, hvr, hvc] using this
      have hf0 : f.data 0 0 = 0 := by
        have := (hvf 0).2; simpa [Tensor.Get, hfr, hfc] using this
      have hf1 : f.data 1 0 = 0 := by
        have := (hvf 1).2; simpa [Tensor.Get, hfr, hfc] using this
      have hw0' : b.ang_vel.data 0 0 = 0 := by
        simpa [Tensor.Get, har, hac] using hw0
      have ht0' : τ.data 0 0 = 0 := by
        simpa [Tensor.Get, htr, htc] using ht0
      constructor
      · intro i
        fin_cases i <;>
          simp [Tensor.Get, hvr, hvc, hpr, hpc, hfr, hfc, hv0, hv1, hf0, hf1]
      · simp [Tensor.Get, hrr, hrc, har, hac, hw0', ht0']
    · intro hm1 hvf
      have hm1' : b.mass.data 0 0 = 1 := by
        simpa [Tensor.Get, hmr, hmc] using hm1
      have hv0 : b.vel.data 0 0 = 0 := by
        have := hvf 0; simpa [Tensor.Get, hvr, hvc] using this
      have hv1 : b.vel.data 1 0 = 0 := by
        have := hvf 1; simpa [Tensor.Get, hvr, hvc] using this
      intro i
      fin_cases i <;>
        constructor <;>
          simp [Tensor.Get, hvr, hvc, hpr, hpc, hfr, hfc, hm1', hv0, hv1]
  · simp only [Body.Step, Body.StepManual, Body.ResetForces, Tensor.div, Tensor.mul,
      Tensor.add, Tensor.ofList, hmr, hmc, hir, hic, h1, h2, h3, h4, hvr, hvc, hpr, hpc,
      har, hac, hrr, hrc, List.length_cons, List.length_nil, and_self, if_true, reduceIte,
      bind, Except.bind, pure]
    exact ⟨_, rfl, rfl, rfl⟩

/-- A concrete dynamic body for witnesses: at (0, 10), mass 1, unit box. -/
def b0 : Body := Body.init 0 10 1 1 1

/-- A concrete (2,1) force and (1,1) torque. -/
def f0 : Tensor := Tensor.ofList [2, 0] false

def tau0 : Tensor := Tensor.ofList [0] false

/-- Witness for C2 at the concrete body `b0`, force `[2,0]`, dt = 1/100. -/
theorem c2_semi_implicit_euler_witness :
    BodyShaped b0 ∧ (f0.rows = 2 ∧ f0.cols = 1) ∧ (tau0.rows = 1 ∧ tau0.cols = 1) ∧
    (∃ b', Body.StepManual b0 f0 tau0 (1/100) = Except.ok b') ∧
    (∃ b2, Body.Step b0 (1/100) = Except.ok b2 ∧
      b2.m_ForceAccumulator = Tensor.ofList [0, 0] false ∧
      b2.m_TorqueAccumulator = Tensor.ofList [0] false) := by
  have hb : BodyShaped b0 := by decide
  have hf : f0.rows = 2 ∧ f0.cols = 1 := by decide
  have ht : tau0.rows = 1 ∧ tau0.cols = 1 := by decide
  have h := c2_semi_implicit_euler b0 f0 tau0 (1/100) hb hf ht
  exact ⟨hb, hf, ht, h.1.elim fun b' hp => ⟨b', hp.1⟩, h.2⟩

/-- Destructuring a successful `Except` bind. -/
theorem except_bind_ok {α β : Type} {x : Except TError α} {g : α → Except TError β} {v : β}
    (h : x.bind g = Except.ok v) : ∃ a, x = Except.ok a ∧ g a = Except.ok v := by
  cases x with
  | error e => simp [Except.bind] at h
  | ok a => exact ⟨a, rfl, by simpa [Except.bind] using h⟩

/-- A successful `+` has the or of the operand requires-grad flags. -/
theorem add_ok_rg {a b r : Tensor} (h : Tensor.add a b = Except.ok r) :
    r.requiresGrad = (a.requiresGrad || b.requiresGrad) := by
  unfold Tensor.add at h
  split at h
  · cases h; rfl
  · cases h

/-- A successful `·` has the or of the operand requires-grad flags. -/
theorem mul_ok_rg {a b r : Tensor} (h : Tensor.mul a b = Except.ok r) :
    r.requiresGrad = (a.requiresGrad || b.requiresGrad) := by
  unfold Tensor.mul at h
  split at h
  · cases h; rfl
  · split at h
    · cases h; rfl
    · cases h

/-- Counterexample to C7: a static body built with a nonzero initial rotation
has a rotation tensor with requires-grad FALSE. -/
theorem c7_static_rotation_counterexample :
    (Body.CreateStatic 0 0 1 1 1).rotation.requiresGrad = false := by
  simp [Body.CreateStatic, Body.init, Body.ResetForces, Tensor.ofList]

/-- C7 amended: the dynamic constructor gives all four state tensors
requires-grad true; `CreateStatic` with zero rotation keeps them; Step (when
it succeeds) preserves requires-grad of all four state tensors; but
`CreateStatic` with a nonzero rotation replaces the rotation tensor by one
with requires-grad false (the other three stay true). -/
theorem c7_requires_grad (x y m w hgt rot : ℚ) (b : Body) (f τ : Tensor) (dt : ℚ) :
    ((Body.init x y m w hgt).pos.requiresGrad = true ∧
     (Body.init x y m w hgt).vel.requiresGrad = true ∧
     (Body.init x y m w hgt).rotation.requiresGrad = true ∧
     (Body.init x y m w hgt).ang_vel.requiresGrad = true) ∧
    (rot = 0 →
      (Body.CreateStatic x y w hgt rot).pos.requiresGrad = true ∧
      (Body.CreateStatic x y w hgt rot).vel.requiresGrad = true ∧
      (Body.CreateStatic x y w hgt rot).rotation.requiresGrad = true ∧
      (Body.CreateStatic x y w hgt rot).ang_vel.requiresGrad = true) ∧
    (rot ≠ 0 →
      (Body.CreateStatic x y w hgt rot).rotation.requiresGrad = false ∧
      (Body.CreateStatic x y w hgt rot).pos.requiresGrad = true ∧
      (Body.CreateStatic x y w hgt rot).vel.requiresGrad = true ∧
      (Body.CreateStatic x y w hgt rot).ang_vel.requiresGrad = true) ∧
    (∀ b', Body.StepManual b f τ dt = Except.ok b' →
      (b.pos.requiresGrad = true → b'.pos.requiresGrad = true) ∧
      (b.vel.requiresGrad = true → b'.vel.requiresGrad = true) ∧
      (b.rotation.requiresGrad = true → b'.rotation.requiresGrad = true) ∧
      (b.ang_vel.requiresGrad = true → b'.ang_vel.requiresGrad = true)) := by
  refine ⟨?_, ?_, ?_, ?_⟩
  · simp [Body.init, Body.ResetForces, Tensor.ofList]
  · intro h
    simp [Body.CreateStatic, Body.init, Body.ResetForces, Tensor.ofList, h]
  · intro h
    simp [Body.CreateStatic, Body.init, Body.ResetForces, Tensor.ofList, h]
  · intro b' hstep
    unfold Body.StepManual at hstep
    obtain ⟨invMass, hA, hstep⟩ := except_bind_ok hstep
    obtain ⟨acc, hB, hstep⟩ := except_bind_ok hstep
    obtain ⟨invI, hC, hstep⟩ := except_bind_ok hstep
    obtain ⟨alpha, hD, hstep⟩ := except_bind_ok hstep
    obtain ⟨accdt, hE, hstep⟩ := except_bind_ok hstep
    obtain ⟨vel2, hF, hstep⟩ := except_bind_ok hstep
    obtain ⟨veldt, hG, hstep⟩ := except_bind_ok hstep
    obtain ⟨pos2, hH, hstep⟩ := except_bind_ok hstep
    obtain ⟨alphadt, hI, hstep⟩ := except_bind_ok hstep
    obtain ⟨ang2, hJ, hstep⟩ := except_bind_ok hstep
    obtain ⟨angdt, hK, hstep⟩ := except_bind_ok hstep
    obtain ⟨rot2, hL, hstep⟩ := except_bind_ok hstep
    cases hstep
    refine ⟨?_, ?_, ?_, ?_⟩
    · intro hp
      simp [add_ok_rg hH, hp]
    · intro hv
      simp [add_ok_rg hF, hv]
    · intro hr
      simp [add_ok_rg hL, hr]
    · intro ha
      simp [add_ok_rg hJ, ha]

/-- Witness for the amended C7 at concrete bodies (both rotation cases and a
concrete successful step). -/
theorem c7_requires_grad_witness :
    (Body.init 0 0 1 1 1).pos.requiresGrad = true ∧
    ((0 : ℚ) = 0 ∧ (Body.CreateStatic 0 0 1 1 0).rotation.requiresGrad = true) ∧
    ((1 : ℚ) ≠ 0 ∧ (Body.CreateStatic 0 0 1 1 1).rotation.requiresGrad = false) ∧
    (∃ b', Body.StepManual b0 f0 tau0 (1/100) = Except.ok b' ∧
      b'.pos.requiresGrad = true) := by
  obtain ⟨bw, hbw⟩ : ∃ b', Body.StepManual b0 f0 tau0 (1/100) = Except.ok b' := ⟨_, rfl⟩
  refine ⟨(c7_requires_grad 0 0 1 1 1 0 b0 f0 tau0 (1/100)).1.1,
    ⟨rfl, ((c7_requires_grad 0 0 1 1 1 0 b0 f0 tau0 (1/100)).2.1 rfl).2.2.1⟩,
    ⟨by norm_num, ((c7_requires_grad 0 0 1 1 1 1 b0 f0 tau0 (1/100)).2.2.1 (by norm_num)).1⟩,
    ⟨bw, hbw, ((c7_requires_grad 0 0 1 1 1 1 b0 f0 tau0 (1/100)).2.2.2 bw hbw).1 (by decide)⟩⟩

/-- C8: `AddMotor` rejects (throws) exactly when the new motor's footprint
overlaps an attached motor's; on success it sets the parent pointer, appends
the motor, and adds `motor.mass` to the mass and `motor.mass·(lx²+ly²)` to
the inertia; identical (non-degenerate) footprints always overlap. -/
theorem c8_add_motor (b : Body) (m : Motor) :
    (Body.AddMotor b m = Except.error TError.motorOverlap ↔
      b.motors.any (fun ex => Motor.Overlaps ex m) = true) ∧
    (∀ b', Body.AddMotor b m = Except.ok b' →
      b'.mass.Get 0 0 = b.mass.Get 0 0 + m.mass ∧
      b'.inertia.Get 0 0 =
        b.inertia.Get 0 0 + m.mass * (m.local_x * m.local_x + m.local_y * m.local_y) ∧
      b'.motors = b.motors ++ [{ m with parentSet := true }]) ∧
    (0 ≤ m.width → 0 ≤ m.height → Motor.Overlaps m m = true) := by
  refine ⟨?_, ?_, ?_⟩
  · by_cases hc : b.motors.any (fun ex => Motor.Overlaps ex m) = true
    · simp [Body.AddMotor, hc]
    · simp [Body.AddMotor, hc]
  · intro b' h
    by_cases hc : b.motors.any (fun ex => Motor.Overlaps ex m) = true
    · simp [Body.AddMotor, hc] at h
    · simp [Body.AddMotor, hc] at h
      cases h
      refine ⟨?_, ?_, rfl⟩
      · simp [Tensor.Get, Tensor.ofList]
      · simp [Tensor.Get, Tensor.ofList]
  · intro hw hh
    simp only [Motor.Overlaps, decide_eq_true_eq]
    push_neg
    exact ⟨by linarith, by linarith, by linarith, by linarith⟩

/-- A concrete motor at the origin with the default 0.1 × 0.1 footprint. -/
def mA : Motor := { angle := 0 }

/-- `b0` with `mA` already attached (as `AddMotor` would leave it). -/
def bM : Body := { b0 with motors := [{ mA with parentSet := true }] }

/-- Witness for C8: attaching over an identical footprint errors; attaching to
a motor-free body succeeds with the documented mass/inertia updates. -/
theorem c8_add_motor_witness :
    Body.AddMotor bM mA = Except.error TError.motorOverlap ∧
    (∃ b', Body.AddMotor b0 mA = Except.ok b' ∧
      b'.mass.Get 0 0 = b0.mass.Get 0 0 + mA.mass ∧
      b'.inertia.Get 0 0 =
        b0.inertia.Get 0 0 + mA.mass * (mA.local_x * mA.local_x + mA.local_y * mA.local_y) ∧
      b'.motors = b0.motors ++ [{ mA with parentSet := true }]) ∧
    Motor.Overlaps mA mA = true := by
  obtain ⟨bw, hbw⟩ : ∃ b', Body.AddMotor b0 mA = Except.ok b' := ⟨_, rfl⟩
  have hany : (bM.motors.any fun ex => Motor.Overlaps ex mA) = true := by
    norm_num [bM, mA, Motor.Overlaps]
  refine ⟨(c8_add_motor bM mA).1.mpr hany,
    ⟨bw, hbw, (c8_add_motor b0 mA).2.1 bw hbw⟩,
    (c8_add_motor b0 mA).2.2 (by norm_num [mA]) (by norm_num [mA])⟩

/-- A body–body contact manifold (contact.h / the contact implementation):
only the fields `BeginFrame` / `EndFrame` read or write, plus the persistent
payload (pair key, warm-start impulses) which they must carry through
untouched. -/
structure Manifold where
  pairKey : Nat × Nat
  touching : Bool
  was_touching : Bool
  normal_impulse : ℚ
  tangent_impulse : ℚ
deriving DecidableEq

/-- `ContactManager`: the manifold cache (a `std::map` iterated in key order,
modelled as the ordered list of its entries) and the active list (pointers
into the cache, modelled as the pointed-to manifolds). -/
structure ContactManager where
  cache : List Manifold
  active : List Manifold

/-- `ContactManager::BeginFrame`: for every cached manifold copy `touching`
into `was_touching` and reset `touching`; clear the active list. -/
def ContactManager.BeginFrame (cm : ContactManager) : ContactManager :=
  { cache := cm.cache.map fun mf => { mf with was_touching := mf.touching, touching := false }
    active := [] }

/-- `ContactManager::EndFrame`: erase every manifold not touching; append each
surviving manifold to the active list. -/
def ContactManager.EndFrame (cm : ContactManager) : ContactManager :=
  { cache := cm.cache.filter fun mf => mf.touching
    active := cm.active ++ cm.cache.filter fun mf => mf.touching }

/-- C9: `BeginFrame` copies `touching` into `was_touching`, resets `touching`,
clears the active list; `EndFrame` drops exactly the non-touching manifolds
and appends the survivors to the active list, so that after a
`BeginFrame`-…-`EndFrame` frame the cache and the active list hold exactly
the manifolds marked touching during the frame. -/
theorem c9_contact_frame (cm : ContactManager) :
    ((ContactManager.BeginFrame cm).cache =
        cm.cache.map (fun mf => { mf with was_touching := mf.touching, touching := false }) ∧
      (ContactManager.BeginFrame cm).active = []) ∧
    ((ContactManager.EndFrame cm).cache = cm.cache.filter (fun mf => mf.touching) ∧
      (ContactManager.EndFrame cm).active =
        cm.active ++ cm.cache.filter (fun mf => mf.touching)) ∧
    (∀ mf, mf ∈ (ContactManager.EndFrame cm).cache ↔
        mf ∈ cm.cache ∧ mf.touching = true) ∧
    (cm.active = [] →
      (ContactManager.EndFrame cm).active = (ContactManager.EndFrame cm).cache) := by
  refine ⟨⟨rfl, rfl⟩, ⟨rfl, rfl⟩, ?_, ?_⟩
  · intro mf
    simp [ContactManager.EndFrame, List.mem_filter]
  · intro h
    simp [ContactManager.EndFrame, h]

/-- The real-valued library functions (`std::cos`, `std::sin`, `std::tanh`,
`std::sqrt`) the engine calls, kept as parameters of the model: the claims
under study depend on orderings, shapes and rational arithmetic, never on the
analytic values of these functions. -/
structure RealFns where
  rcos : ℚ → ℚ
  rsin : ℚ → ℚ
  rtanh : ℚ → ℚ
  rsqrt : ℚ → ℚ

/-- `Tensor::Cos`: elementwise cosine, requires-grad propagated. -/
def Tensor.Cos (rf : RealFns) (t : Tensor) : Tensor :=
  { t with data := fun r c => rf.rcos (t.data r c) }

/-- `Tensor::Sin`: elementwise sine. -/
def Tensor.Sin (rf : RealFns) (t : Tensor) : Tensor :=
  { t with data := fun r c => rf.rsin (t.data r c) }

/-- `tanh(const Tensor&)` (activations.cpp): elementwise tanh, requires-grad
propagated.  (Named `tanhT` because `tanh` is taken by the library.) -/
def tanhT (rf : RealFns) (t : Tensor) : Tensor :=
  { t with data := fun r c => rf.rtanh (t.data r c) }

/-- `Tensor::Stack`: glue scalars into a column; requires-grad if any input
requires grad. -/
def Tensor.Stack (ts : List Tensor) : Tensor :=
  { rows := ts.length, cols := 1
    data := fun r c => if c = 0 then (ts.getD r (Tensor.zeros 1 1 false)).data 0 0 else 0
    requiresGrad := ts.any (·.requiresGrad) }

/-- `Body::GetX`. -/
def Body.GetX (b : Body) : ℚ := b.pos.Get 0 0

/-- `Body::GetY`. -/
def Body.GetY (b : Body) : ℚ := b.pos.Get 1 0

/-- `Body::GetCorners`: world positions of the four box corners
(TR, TL, BL, BR), as a flat list of eight scalar tensors
`[x₀, y₀, x₁, y₁, x₂, y₂, x₃, y₃]`. -/
def Body.GetCorners (rf : RealFns) (b : Body) : Except TError (List Tensor) := do
  let w := (b.shapes.headI).width
  let hgt := (b.shapes.headI).height
  let hw := w / 2
  let hh := hgt / 2
  let offsets : List (ℚ × ℚ) := [(hw, hh), (-hw, hh), (-hw, -hh), (hw, -hh)]
  let cosT := Tensor.Cos rf b.rotation
  let sinT := Tensor.Sin rf b.rotation
  let px ← b.pos.Select 0
  let py ← b.pos.Select 1
  offsets.foldlM (fun acc off => do
    let rotX ← Tensor.sub (cosT.mulScalar off.1) (sinT.mulScalar off.2)
    let rotY ← Tensor.add (sinT.mulScalar off.1) (cosT.mulScalar off.2)
    let finalX ← Tensor.add px rotX
    let finalY ← Tensor.add py rotY
    pure (acc ++ [finalX, finalY])) ([] : List Tensor)

/-- `Body::GetAABB`: circumscribing disc of the box around the current
position. -/
def Body.GetAABB (rf : RealFns) (b : Body) : AABB :=
  let w := (b.shapes.headI).width
  let hgt := (b.shapes.headI).height
  let radius := rf.rsqrt (w * w + hgt * hgt) / 2
  { minX := b.GetX - radius, maxX := b.GetX + radius
    minY := b.GetY - radius, maxY := b.GetY + radius }

/-- `Body::ApplyMotorForces` (body.cpp): for each motor with positive thrust,
rotate the local thrust vector to world space, apply it as a linear force,
and apply the 2-D cross-product torque of the world force at the motor's
rotated offset. -/
def Body.ApplyMotorForces (rf : RealFns) (b : Body) : Except TError Body :=
  let bodyRot := b.rotation.Get 0 0
  let cosR := rf.rcos bodyRot
  let sinR := rf.rsin bodyRot
  b.motors.foldlM (fun bacc m =>
    if m.thrust ≤ 0 then pure bacc
    else do
      let localFx := rf.rcos m.angle * m.thrust
      let localFy := rf.rsin m.angle * m.thrust
      let worldFx := cosR * localFx - sinR * localFy
      let worldFy := sinR * localFx + cosR * localFy
      let b1 ← Body.ApplyForce bacc (Tensor.ofList [worldFx, worldFy] false)
      let rx := cosR * m.local_x - sinR * m.local_y
      let ry := sinR * m.local_x + cosR * m.local_y
      let torque := rx * worldFy - ry * worldFx
      Body.ApplyTorque b1 (Tensor.ofList [torque] false)) b

/-- `GroundSegment` (engine.h): endpoints, outward normal, stiffness,
damping, friction, and the pre-expanded AABB. -/
structure GroundSegment where
  x1 : ℚ
  y1 : ℚ
  x2 : ℚ
  y2 : ℚ
  nx : ℚ
  ny : ℚ
  k : ℚ
  damping : ℚ
  friction : ℚ
  min_x : ℚ
  max_x : ℚ
  min_y : ℚ
  max_y : ℚ

/-- `aabb_overlap` helper (engine implementation). -/
def aabbOverlap (min_x1 max_x1 min_y1 max_y1 min_x2 max_x2 min_y2 max_y2 : ℚ) : Bool :=
  decide (min_x1 ≤ max_x2 ∧ max_x1 ≥ min_x2 ∧ min_y1 ≤ max_y2 ∧ max_y1 ≥ min_y2)

/-- One candidate segment of the narrowphase inner loop of `Engine::update`:
on contact (`dist < 0` and the relaxed parameter bounds), build the
spring-damper normal force and the smoothed tangential friction force as
tensor ops and fold them, weighted by penetration depth, into the running
sums; otherwise leave the state unchanged. -/
def segContact (rf : RealFns) (b : Body) (cx cy : Tensor) (px py : ℚ)
    (st : Tensor × Tensor × Tensor × Bool) (seg : GroundSegment) :
    Except TError (Tensor × Tensor × Tensor × Bool) :=
  let (sum_fx, sum_fy, sum_weight, _) := st
  let dx := px - seg.x1
  let dy := py - seg.y1
  let dist := dx * seg.nx + dy * seg.ny
  let seg_dx := seg.x2 - seg.x1
  let seg_dy := seg.y2 - seg.y1
  let seg_len_sq := seg_dx * seg_dx + seg_dy * seg_dy
  let tpar := (dx * seg_dx + dy * seg_dy) / seg_len_sq
  if dist < 0 ∧ -(1/20) ≤ tpar ∧ tpar ≤ 1 + 1/20 then do
    let x1_t := Tensor.ofList [seg.x1] false
    let y1_t := Tensor.ofList [seg.y1] false
    let diff_x ← Tensor.sub cx x1_t
    let diff_y ← Tensor.sub cy y1_t
    let term_x := diff_x.mulScalar seg.nx
    let term_y := diff_y.mulScalar seg.ny
    let dist_t ← Tensor.add term_x term_y
    let spring_force_mag := dist_t.mulScalar (-1 * seg.k)
    let pos_x ← b.pos.Select 0
    let pos_y ← b.pos.Select 1
    let rx ← Tensor.sub cx pos_x
    let ry ← Tensor.sub cy pos_y
    let omega := b.ang_vel
    let vr ← Tensor.mul omega ry
    let v_rot_x := vr.mulScalar (-1)
    let v_rot_y ← Tensor.mul omega rx
    let vx ← b.vel.Select 0
    let vy ← b.vel.Select 1
    let vp_x ← Tensor.add vx v_rot_x
    let vp_y ← Tensor.add vy v_rot_y
    let vp_proj_x := vp_x.mulScalar seg.nx
    let vp_proj_y := vp_y.mulScalar seg.ny
    let v_proj ← Tensor.add vp_proj_x vp_proj_y
    let damp_force_mag := v_proj.mulScalar (-1 * seg.damping)
    let total_normal_mag ← Tensor.add spring_force_mag damp_force_mag
    let n_tensor := Tensor.ofList [seg.nx, seg.ny] false
    let f_normal ← Tensor.mul n_tensor total_normal_mag
    let tx := -seg.ny
    let ty := seg.nx
    let vt_proj_x := vp_x.mulScalar tx
    let vt_proj_y := vp_y.mulScalar ty
    let v_tan ← Tensor.add vt_proj_x vt_proj_y
    let friction_coeff := total_normal_mag.mulScalar (-1 * seg.friction)
    let tan_dir := v_tan.mulScalar 2
    let friction_dir := tanhT rf tan_dir
    let f_friction_mag ← Tensor.mul friction_coeff friction_dir
    let t_tensor := Tensor.ofList [tx, ty] false
    let f_friction ← Tensor.mul t_tensor f_friction_mag
    let f_seg ← Tensor.add f_normal f_friction
    let f_seg_x ← f_seg.Select 0
    let f_seg_y ← f_seg.Select 1
    let weight := dist_t.mulScalar (-1)
    let w_fx ← Tensor.mul f_seg_x weight
    let w_fy ← Tensor.mul f_seg_y weight
    let sfx ← Tensor.add sum_fx w_fx
    let sfy ← Tensor.add sum_fy w_fy
    let sw ← Tensor.add sum_weight weight
    pure (sfx, sfy, sw, true)
  else pure st

/-- Per-corner body of the narrowphase loop of `Engine::update`: fold the
candidate segments into weighted force sums; if any contact happened, apply
the weighted-average force at the corner via `ApplyForceAtPoint`. -/
def cornerContact (rf : RealFns) (candidates : List GroundSegment) (b : Body)
    (cx cy : Tensor) : Except TError Body := do
  let px := cx.Get 0 0
  let py := cy.Get 0 0
  let s0 : Tensor × Tensor × Tensor × Bool :=
    (Tensor.ofList [0] false, Tensor.ofList [0] false, Tensor.ofList [0] false, false)
  let st ← candidates.foldlM (segContact rf b cx cy px py) s0
  let (sum_fx, sum_fy, sum_weight, has_contact) := st
  if has_contact then do
    let final_fx ← Tensor.div sum_fx sum_weight
    let final_fy ← Tensor.div sum_fy sum_weight
    let total_force := Tensor.Stack [final_fx, final_fy]
    let ax_x := Tensor.ofList [1, 0] false
    let ax_y := Tensor.ofList [0, 1] false
    let pc1 ← Tensor.mul ax_x cx
    let pc2 ← Tensor.mul ax_y cy
    let p_corner ← Tensor.add pc1 pc2
    Body.ApplyForceAtPoint b total_force p_corner
  else pure b

/-- Group a flat corner list `[x₀, y₀, x₁, y₁, …]` into coordinate pairs (the
engine's corner loop strides by two). -/
def pairUp : List Tensor → List (Tensor × Tensor)
  | x :: y :: rest => (x, y) :: pairUp rest
  | _ => []

/-- Per-body work of one substep of `Engine::update`: apply gravity `m·g`,
compute corners and AABB, broadphase-filter the segments, run the per-corner
weighted-average contact kernel, then integrate with the substep dt.  No
motor forces are applied anywhere in this loop. -/
def Engine.substepBody (rf : RealFns) (segs : List GroundSegment) (gravity : Tensor)
    (sub_dt : ℚ) (b : Body) : Except TError Body := do
  let force_gravity ← Tensor.mul gravity b.mass
  let b1 ← Body.ApplyForce b force_gravity
  let corners ← Body.GetCorners rf b1
  let aabb := Body.GetAABB rf b1
  let candidates := segs.filter fun seg =>
    aabbOverlap aabb.minX aabb.maxX aabb.minY aabb.maxY seg.min_x seg.max_x seg.min_y seg.max_y
  let b2 ← (pairUp corners).foldlM (fun bacc cc => cornerContact rf candidates bacc cc.1 cc.2) b1
  Body.Step b2 sub_dt

/-- `Engine` (engine.h): bodies, static segments, timestep, substep count,
gravity.  (The renderer and pause flag have no bearing on `update`.) -/
structure Engine where
  bodies : List Body
  static_geometry : List GroundSegment
  dt : ℚ
  substeps : Nat
  gravity : Tensor

/-- `Engine::update`: `substeps` rounds of `dt / substeps`, each round
processing the bodies in registration order through `substepBody`. -/
def Engine.update (rf : RealFns) (e : Engine) : Except TError Engine := do
  let sub_dt := e.dt / (e.substeps : ℚ)
  let bs ← (List.range e.substeps).foldlM
    (fun bodies _ => bodies.mapM (Engine.substepBody rf e.static_geometry e.gravity sub_dt))
    e.bodies
  pure { e with bodies := bs }

/-- What one engine substep does to a body when no segment is a candidate:
gravity, then integrate.  (No motor phase: the code has none.) -/
def noGeomSubstep (gravity : Tensor) (sub_dt : ℚ) (b : Body) : Except TError Body := do
  let force_gravity ← Tensor.mul gravity b.mass
  let b1 ← Body.ApplyForce b force_gravity
  Body.Step b1 sub_dt

theorem cornerContact_nil (rf : RealFns) (b : Body) (cx cy : Tensor) :
    cornerContact rf [] b cx cy = Except.ok b := rfl

theorem foldl_cornerContact_nil (rf : RealFns) (b : Body) (l : List (Tensor × Tensor)) :
    l.foldlM (fun bacc cc => cornerContact rf [] bacc cc.1 cc.2) b = Except.ok b := by
  induction l generalizing b with
  | nil => rfl
  | cons hd tl ih =>
    rw [List.foldlM_cons, cornerContact_nil]
    simpa [bind, Except.bind] using ih b

theorem select_ok (t : Tensor) (idx : Int) :
    ∃ r, Tensor.Select t idx = Except.ok r ∧ r.rows = 1 ∧ r.cols = 1 := by
  unfold Tensor.Select
  split
  · exact ⟨_, rfl, rfl, rfl⟩
  · exact ⟨_, rfl, rfl, rfl⟩

theorem getCorners_ok (rf : RealFns) (b : Body)
    (hrr : b.rotation.rows = 1) (hrc : b.rotation.cols = 1) :
    ∃ cs, Body.GetCorners rf b = Except.ok cs := by
  obtain ⟨px, hpx, hpxr, hpxc⟩ := select_ok b.pos 0
  obtain ⟨py, hpy, hpyr, hpyc⟩ := select_ok b.pos 1
  simp only [Body.GetCorners, hpx, hpy, Tensor.Cos, Tensor.Sin, Tensor.mulScalar,
    Tensor.sub, Tensor.add, hrr, hrc, hpxr, hpxc, hpyr, hpyc, List.foldlM_cons,
    List.foldlM_nil, and_self, if_true, reduceIte, bind, Except.bind, pure]
  exact ⟨_, rfl⟩

/-- A successful `+` keeps the left operand's shape. -/
theorem add_ok_shape {a b r : Tensor} (h : Tensor.add a b = Except.ok r) :
    r.rows = a.rows ∧ r.cols = a.cols := by
  unfold Tensor.add at h
  split at h
  · cases h; exact ⟨rfl, rfl⟩
  · cases h

theorem substepBody_nil (rf : RealFns) (g : Tensor) (d : ℚ) (b : Body)
    (hrr : b.rotation.rows = 1) (hrc : b.rotation.cols = 1) :
    Engine.substepBody rf [] g d b = noGeomSubstep g d b := by
  unfold Engine.substepBody noGeomSubstep
  cases hmul : Tensor.mul g b.mass with
  | error e => simp [bind, Except.bind, hmul]
  | ok fg =>
    simp only [bind, Except.bind, hmul]
    cases hap : Body.ApplyForce b fg with
    | error e => rfl
    | ok b1 =>
      have hb1 : b1.rotation = b.rotation := by
        unfold Body.ApplyForce at hap
        obtain ⟨fa, hfa, h⟩ := except_bind_ok hap
        cases h; rfl
      obtain ⟨cs, hcs⟩ := getCorners_ok rf b1 (by rw [hb1]; exact hrr) (by rw [hb1]; exact hrc)
      simp only [hcs, List.filter_nil, foldl_cornerContact_nil]

/-- `noGeomSubstep` preserves the rotation tensor's shape. -/
theorem noGeomSubstep_rot_shape {g : Tensor} {d : ℚ} {b b' : Body}
    (h : noGeomSubstep g d b = Except.ok b') :
    b'.rotation.rows = b.rotation.rows ∧ b'.rotation.cols = b.rotation.cols := by
  unfold noGeomSubstep at h
  obtain ⟨fg, hfg, h⟩ := except_bind_ok h
  obtain ⟨b1, hb1, h⟩ := except_bind_ok h
  have hb1rot : b1.rotation = b.rotation := by
    unfold Body.ApplyForce at hb1
    obtain ⟨fa, hfa, hh⟩ := except_bind_ok hb1
    cases hh; rfl
  unfold Body.Step at h
  obtain ⟨b2, hb2, h⟩ := except_bind_ok h
  unfold Body.StepManual at hb2
  obtain ⟨q1, h1, hb2⟩ := except_bind_ok hb2
  obtain ⟨q2, h2, hb2⟩ := except_bind_ok hb2
  obtain ⟨q3, h3, hb2⟩ := except_bind_ok hb2
  obtain ⟨q4, h4, hb2⟩ := except_bind_ok hb2
  obtain ⟨q5, h5, hb2⟩ := except_bind_ok hb2
  obtain ⟨q6, h6, hb2⟩ := except_bind_ok hb2
  obtain ⟨q7, h7, hb2⟩ := except_bind_ok hb2
  obtain ⟨q8, h8, hb2⟩ := except_bind_ok hb2
  obtain ⟨q9, h9, hb2⟩ := except_bind_ok hb2
  obtain ⟨q10, h10, hb2⟩ := except_bind_ok hb2
  obtain ⟨q11, h11, hb2⟩ := except_bind_ok hb2
  obtain ⟨rot2, h12, hb2⟩ := except_bind_ok hb2
  cases hb2
  cases h
  have := add_ok_shape h12
  constructor
  · simpa [Body.ResetForces, hb1rot] using this.1
  · simpa [Body.ResetForces, hb1rot] using this.2

/-- `mapM` only depends on the function's values on the list. -/
theorem mapM_congr_mem {f g : Body → Except TError Body} :
    ∀ l : List Body, (∀ x ∈ l, f x = g x) → l.mapM f = l.mapM g := by
  intro l
  induction l with
  | nil => intro _; rfl
  | cons hd tl ih =>
    intro h
    rw [List.mapM_cons, List.mapM_cons, h hd (by simp), ih fun x hx => h x (by simp [hx])]

/-- A pointwise-preserved predicate survives `mapM`. -/
theorem mapM_pres {g : Body → Except TError Body} {P : Body → Prop}
    (hg : ∀ x, P x → ∀ y, g x = Except.ok y → P y) :
    ∀ (l : List Body) (l' : List Body), (∀ x ∈ l, P x) → l.mapM g = Except.ok l' →
      ∀ y ∈ l', P y := by
  intro l
  induction l with
  | nil =>
    intro l' _ h
    simp only [List.mapM_nil, pure, Except.pure] at h
    cases h
    intro y hy
    simp at hy
  | cons hd tl ih =>
    intro l' hP h
    rw [List.mapM_cons] at h
    obtain ⟨y0, hy0, h⟩ := except_bind_ok h
    obtain ⟨ys, hys, h⟩ := except_bind_ok h
    cases h
    intro y hy
    rcases List.mem_cons.mp hy with rfl | hmem
    · exact hg hd (hP hd (by simp)) y hy0
    · exact ih ys (fun x hx => hP x (by simp [hx])) hys y hmem

theorem foldRounds_no_geom (rf : RealFns) (g : Tensor) (d : ℚ) :
    ∀ (rounds : List Nat) (bodies : List Body),
    (∀ x ∈ bodies, x.rotation.rows = 1 ∧ x.rotation.cols = 1) →
    rounds.foldlM (fun bs _ => bs.mapM (Engine.substepBody rf [] g d)) bodies =
      rounds.foldlM (fun bs _ => bs.mapM (noGeomSubstep g d)) bodies := by
  intro rounds
  induction rounds with
  | nil => intro bodies _; rfl
  | cons hd tl ih =>
    intro bodies hP
    rw [List.foldlM_cons, List.foldlM_cons,
      mapM_congr_mem bodies fun x hx => substepBody_nil rf g d x (hP x hx).1 (hP x hx).2]
    cases hmap : bodies.mapM (noGeomSubstep g d) with
    | error e => simp [bind, Except.bind, hmap]
    | ok bs2 =>
      simp only [bind, Except.bind, hmap]
      refine ih bs2 (mapM_pres ?_ bodies bs2 hP hmap)
      intro x hx y hy
      exact ⟨(noGeomSubstep_rot_shape hy).1.trans hx.1, (noGeomSubstep_rot_shape hy).2.trans hx.2⟩

/-- The per-substep body sequence as claim C3 states it, following the spec's
words: "apply gravity, run segment contact kernel, apply motor forces,
integrate" — `substepBody` with the claimed motor-force phase inserted before
integration.  To be compared with `Engine.substepBody`, translated from the
code, which has no such phase. -/
def Engine.substepBodySpec (rf : RealFns) (segs : List GroundSegment) (gravity : Tensor)
    (sub_dt : ℚ) (b : Body) : Except TError Body := do
  let force_gravity ← Tensor.mul gravity b.mass
  let b1 ← Body.ApplyForce b force_gravity
  let corners ← Body.GetCorners rf b1
  let aabb := Body.GetAABB rf b1
  let candidates := segs.filter fun seg =>
    aabbOverlap aabb.minX aabb.maxX aabb.minY aabb.maxY seg.min_x seg.max_x seg.min_y seg.max_y
  let b2 ← (pairUp corners).foldlM (fun bacc cc => cornerContact rf candidates bacc cc.1 cc.2) b1
  let b3 ← Body.ApplyMotorForces rf b2
  Body.Step b3 sub_dt

/-- The update loop as claim C3 states it (spec wording), wrapping
`substepBodySpec` exactly as `Engine.update` wraps `substepBody`. -/
def Engine.updateSpecOrder (rf : RealFns) (e : Engine) : Except TError Engine := do
  let sub_dt := e.dt / (e.substeps : ℚ)
  let bs ← (List.range e.substeps).foldlM
    (fun bodies _ => bodies.mapM (Engine.substepBodySpec rf e.static_geometry e.gravity sub_dt))
    e.bodies
  pure { e with bodies := bs }

/-- Trivial real-function instantiation for the motor counterexample: the only
angle it is evaluated at is zero, where cosine is 1 and sine is 0. -/
def rf0 : RealFns :=
  { rcos := fun _ => 1, rsin := fun _ => 0, rtanh := fun _ => 0, rsqrt := fun _ => 0 }

/-- A motor with thrust 1 at angle 0 (local +x), already attached. -/
def mMot : Motor := { angle := 0, thrust := 1, parentSet := true }

/-- A unit-mass body carrying `mMot`. -/
def bMot : Body := { Body.init 0 0 1 1 1 with motors := [mMot] }

/-- One body with a thrusting motor, no ground segments, zero gravity,
dt = 1, one substep. -/
def E0 : Engine :=
  { bodies := [bMot], static_geometry := [], dt := 1, substeps := 1
    gravity := Tensor.ofList [0, 0] false }

/-- C3 amended: a substep processes each body as gravity → segment-contact
kernel → integrate with `dt/substeps`; when no segment is present the contact
kernel is inert, so `update` is exactly `substeps` rounds of
gravity-then-integrate over the bodies in registration order — with NO
motor-force phase anywhere (`Body::ApplyMotorForces` is never called by
`update`). -/
theorem c3_update_order (rf : RealFns) (e : Engine) (g : Tensor) (d : ℚ) (b : Body)
    (hrr : b.rotation.rows = 1) (hrc : b.rotation.cols = 1)
    (hgeom : e.static_geometry = [])
    (hbs : ∀ x ∈ e.bodies, x.rotation.rows = 1 ∧ x.rotation.cols = 1) :
    Engine.substepBody rf [] g d b = noGeomSubstep g d b ∧
    Engine.update rf e = (do
      let bs ← (List.range e.substeps).foldlM
        (fun bodies _ => bodies.mapM (noGeomSubstep e.gravity (e.dt / (e.substeps : ℚ))))
        e.bodies
      pure { e with bodies := bs }) := by
  refine ⟨substepBody_nil rf g d b hrr hrc, ?_⟩
  unfold Engine.update
  simp only [hgeom]
  rw [foldRounds_no_geom rf e.gravity (e.dt / (e.substeps : ℚ)) (List.range e.substeps)
    e.bodies hbs]

/-- The claimed substep with no candidate segments: gravity, motor forces,
integrate. -/
def noGeomSubstepSpec (rf : RealFns) (gravity : Tensor) (sub_dt : ℚ) (b : Body) :
    Except TError Body := do
  let force_gravity ← Tensor.mul gravity b.mass
  let b1 ← Body.ApplyForce b force_gravity
  let b3 ← Body.ApplyMotorForces rf b1
  Body.Step b3 sub_dt

theorem substepBodySpec_nil (rf : RealFns) (g : Tensor) (d : ℚ) (b : Body)
    (hrr : b.rotation.rows = 1) (hrc : b.rotation.cols = 1) :
    Engine.substepBodySpec rf [] g d b = noGeomSubstepSpec rf g d b := by
  unfold Engine.substepBodySpec noGeomSubstepSpec
  cases hmul : Tensor.mul g b.mass with
  | error e => simp [bind, Except.bind, hmul]
  | ok fg =>
    simp only [bind, Except.bind, hmul]
    cases hap : Body.ApplyForce b fg with
    | error e => rfl
    | ok b1 =>
      have hb1 : b1.rotation = b.rotation := by
        unfold Body.ApplyForce at hap
        obtain ⟨fa, hfa, h⟩ := except_bind_ok hap
        cases h; rfl
      obtain ⟨cs, hcs⟩ := getCorners_ok rf b1 (by rw [hb1]; exact hrr) (by rw [hb1]; exact hrc)
      simp only [hcs, List.filter_nil, foldl_cornerContact_nil]

theorem cx_code_side :
    ∃ bf, noGeomSubstep (Tensor.ofList [0, 0] false) 1 bMot = Except.ok bf ∧
      bf.vel.Get 0 0 = 0 := by
  simp only [noGeomSubstep, bMot, mMot, Body.init, Body.ResetForces, Body.ApplyForce,
    Body.Step, Body.StepManual, Tensor.mul, Tensor.add, Tensor.div, Tensor.ofList,
    List.length_cons, List.length_nil, and_self, if_true, reduceIte, bind, Except.bind,
    pure, Except.pure]
  refine ⟨_, rfl, ?_⟩
  norm_num [Tensor.Get]

theorem cx_spec_side :
    ∃ bf, noGeomSubstepSpec rf0 (Tensor.ofList [0, 0] false) 1 bMot = Except.ok bf ∧
      bf.vel.Get 0 0 = 1 := by
  have hth : ((1 : ℚ) ≤ 0) = False := by norm_num
  simp only [noGeomSubstepSpec, bMot, mMot, rf0, Body.init, Body.ResetForces,
    Body.ApplyForce, Body.ApplyTorque, Body.ApplyMotorForces, Body.Step, Body.StepManual,
    Tensor.mul, Tensor.add, Tensor.div, Tensor.ofList, Tensor.Get,
    List.length_cons, List.length_nil, List.foldlM_cons, List.foldlM_nil,
    and_self, if_true, reduceIte, hth, if_false, bind, Except.bind, pure, Except.pure]
  refine ⟨_, rfl, ?_⟩
  norm_num [Tensor.Get]

/-- Counterexample to C3: on a body with a thrusting motor (no geometry, zero
gravity), `Engine::update` leaves the velocity at zero — the claimed update
order (with a motor-thrust phase before integration) would produce velocity
1.  `update` never applies motor forces. -/
theorem c3_update_counterexample :
    (Engine.update rf0 E0).map (fun e => e.bodies.map fun bb => bb.vel.Get 0 0) =
      Except.ok [0] ∧
    (Engine.updateSpecOrder rf0 E0).map (fun e => e.bodies.map fun bb => bb.vel.Get 0 0) =
      Except.ok [1] ∧
    (0 : ℚ) ≠ 1 := by
  obtain ⟨bf, hbf, hv⟩ := cx_code_side
  obtain ⟨bg, hbg, hw⟩ := cx_spec_side
  have hsub : Engine.substepBody rf0 [] (Tensor.ofList [0, 0] false) 1 bMot =
      Except.ok bf :=
    (substepBody_nil rf0 (Tensor.ofList [0, 0] false) 1 bMot rfl rfl).trans hbf
  have hsubS : Engine.substepBodySpec rf0 [] (Tensor.ofList [0, 0] false) 1 bMot =
      Except.ok bg :=
    (substepBodySpec_nil rf0 (Tensor.ofList [0, 0] false) 1 bMot rfl rfl).trans hbg
  have hr1 : List.range 1 = [0] := rfl
  refine ⟨?_, ?_, by norm_num⟩
  · have hupd : Engine.update rf0 E0 = Except.ok { E0 with bodies := [bf] } := by
      simp only [Engine.update, E0, hr1, List.foldlM_cons, List.foldlM_nil,
        List.mapM_cons, List.mapM_nil, Nat.cast_one, div_one, hsub,
        bind, Except.bind, pure, Except.pure]
    rw [hupd]
    simp [Except.map, hv]
  · have hupd : Engine.updateSpecOrder rf0 E0 = Except.ok { E0 with bodies := [bg] } := by
      simp only [Engine.updateSpecOrder, E0, hr1, List.foldlM_cons,
        List.foldlM_nil, List.mapM_cons, List.mapM_nil, Nat.cast_one, div_one, hsubS,
        bind, Except.bind, pure, Except.pure]
    rw [hupd]
    simp [Except.map, hw]

/-- Witness for the amended C3 at the concrete engine `E0`. -/
theorem c3_update_order_witness :
    bMot.rotation.rows = 1 ∧ bMot.rotation.cols = 1 ∧ E0.static_geometry = [] ∧
    (Engine.substepBody rf0 [] E0.gravity 1 bMot = noGeomSubstep E0.gravity 1 bMot ∧
     Engine.update rf0 E0 = (do
       let bs ← (List.range E0.substeps).foldlM
         (fun bodies _ => bodies.mapM (noGeomSubstep E0.gravity (E0.dt / (E0.substeps : ℚ))))
         E0.bodies
       pure { E0 with bodies := bs })) := by
  have hrr : bMot.rotation.rows = 1 := rfl
  have hrc : bMot.rotation.cols = 1 := rfl
  have hbs : ∀ x ∈ E0.bodies, x.rotation.rows = 1 ∧ x.rotation.cols = 1 := by
    intro x hx
    have hxe : x = bMot := by simpa [E0] using hx
    rw [hxe]
    exact ⟨hrr, hrc⟩
  exact ⟨hrr, hrc, rfl, c3_update_order rf0 E0 E0.gravity 1 bMot hrr hrc rfl hbs⟩

/-- A concrete two-manifold cache state for the C9 witness. -/
def cm0 : ContactManager :=
  { cache := [{ pairKey := (0, 1), touching := true, was_touching := false
                normal_impulse := 2, tangent_impulse := 3 },
              { pairKey := (0, 2), touching := false, was_touching := true
                normal_impulse := 5, tangent_impulse := 7 }]
    active := [] }

/-- Witness for C9 at the concrete cache `cm0`. -/
theorem c9_contact_frame_witness :
    ((ContactManager.BeginFrame cm0).active = [] ∧
      (ContactManager.BeginFrame cm0).cache =
        cm0.cache.map (fun mf => { mf with was_touching := mf.touching, touching := false })) ∧
    (ContactManager.EndFrame cm0).cache = cm0.cache.filter (fun mf => mf.touching) ∧
    (cm0.active = [] →
      (ContactManager.EndFrame cm0).active = (ContactManager.EndFrame cm0).cache) := by
  have h := c9_contact_frame cm0
  exact ⟨⟨h.1.2, h.1.1⟩, h.2.1.1, h.2.2.2⟩
